import Mathlib

/-!
# Verification of `train-with-pytorch.ipynb`

A shallow embedding of the notebook
`examples/pytorch-imagenet-onnx/training/train-with-pytorch.ipynb`.

The notebook is orchestration glue over the Azure ML SDK: a linear sequence
of Python statements that bind names and invoke SDK / library operations.
We embed it as a small imperative language:

* `Op` — the vocabulary of SDK and library calls the notebook can issue,
  with the literal arguments that appear at each call site.  The vocabulary
  also contains calls the notebook does *not* issue (`datastoreUpload`,
  `pipelineWaitForCompletion`) so that their absence is expressible.
* `SStmt` / `Stmt` — Python statements: literal name bindings, assignments
  of call results, bare call expressions, and the one `try/except` block
  (the notebook has no nested `try`, so `try` bodies hold simple
  statements only).
* `Env` — the platform environment: which clusters exist (this decides
  whether the compute-target lookup raises `ComputeTargetException`, and a
  `ComputeTarget.create` adds the cluster, which makes re-running the cell
  meaningful), plus a failure oracle for every other operation.
* `runStmts` — execution: statements run in order, each emits its `Op`
  into a trace; a Python exception aborts the remaining statements but the
  trace up to the exception is kept.  Evaluating an unbound name raises
  `NameError`, exactly as Python does.
-/

/-- SDK / library operations invoked (or alleged by the spec to be invoked)
by the notebook.  Each constructor carries the literal arguments passed at
the notebook's call site. -/
inductive Op where
  | workspaceFromConfig
  | getDefaultDatastore
  /-- `datastore.upload(path, overwrite=...)`.  In the notebook this call
  occurs only inside a comment (`#data_dir.upload('data', overwrite=True,
  show_progress=False)`). -/
  | datastoreUpload (path : String) (overwrite : Bool)
  | computeTargetLookup (name : String)
  | provisioningConfiguration (vmSize : String) (maxNodes : Nat)
  | computeTargetCreate (name : String)
  /-- `compute_target.wait_for_completion(show_output=True)` (on the
  freshly created cluster). -/
  | computeWaitForCompletion
  | makedirs (dir : String) (existOk : Bool)
  | copyFile (src dstDir : String)
  | pytorchEstimator (sourceDir entryScript : String)
  | pipelineData (name : String)
  | dataReference (refName pathOnDatastore : String)
  | hyperDriveStep (name : String)
  | experimentCreate (name : String)
  | pipelineCreate
  | experimentSubmit
  /-- `pipeline_run.wait_for_completion()` — never issued by the notebook;
  present in the vocabulary so its absence can be stated. -/
  | pipelineWaitForCompletion
  /-- `pipeline_run.find_step_run(...)` wrapped in `HyperDriveStepRun`;
  the step name is the value the notebook passes. -/
  | findStepRun (stepName : String)
  | getBestRunByPrimaryMetric
  | downloadFile (remotePath localPath : String)
  | torchLoad (path : String)
  | torchRandn (shape : List Nat)
  | onnxExport (outFile : String)
  | onnxLoad (path : String)
  | onnxCheckModel
  | modelRegister (modelName modelPath : String)
  deriving DecidableEq, Repr

/-- Python exceptions relevant to the notebook. -/
inductive PyError where
  | computeTargetException
  | nameError (name : String)
  /-- Any other platform / library fault surfaced by an SDK call. -/
  | platformError (op : Op)
  | fileExistsError
  | fileNotFoundError
  deriving DecidableEq, Repr

/-- Values bound to Python names: either the result handle returned by an
operation, or a string literal. -/
inductive Value where
  | result (op : Op)
  | str (s : String)
  deriving DecidableEq, Repr

/-- The Python scope: names bound so far (most recent binding first). -/
abbrev Scope := List (String × Value)

def Scope.lookup (sc : Scope) (x : String) : Option Value :=
  (sc.find? (fun p => p.1 == x)).map (·.2)

/-- The exception classes named in `except` clauses.  The notebook's only
handler names `ComputeTargetException`. -/
inductive ExcClass where
  | computeTargetExc
  deriving DecidableEq, Repr

def ExcClass.catches : ExcClass → PyError → Bool
  | .computeTargetExc, .computeTargetException => true
  | .computeTargetExc, _ => false

/-- Simple (non-`try`) Python statements.  `args` lists the Python names the
statement's expression reads; evaluating an unbound name raises
`NameError`, before the operation is invoked. -/
inductive SStmt where
  | bindStr (x lit : String)
  | assign (x : String) (op : Op) (args : List String)
  | expr (op : Op) (args : List String)
  deriving DecidableEq, Repr

/-- Notebook statements: the notebook contains no nested `try`, so a
`tryExcept` body and handler hold simple statements only. -/
inductive Stmt where
  | simple (s : SStmt)
  | tryExcept (body : List SStmt) (cls : ExcClass) (handler : List SStmt)
  deriving DecidableEq, Repr

/-- The platform environment: which compute clusters currently exist, and a
failure oracle giving the outcome of each non-lookup operation. -/
structure Env where
  clusters : List String
  fails : Op → Option PyError

/-- Environment in which every operation succeeds and the cluster does not
exist yet. -/
def envFresh : Env := ⟨[], fun _ => none⟩

/-- Environment in which every operation succeeds and `cpu-cluster` already
exists. -/
def envOk : Env := ⟨["cpu-cluster"], fun _ => none⟩

/-- Environment in which exactly the operation `o` fails (with a platform
fault) and everything else succeeds; `cpu-cluster` exists. -/
def failOnly (o : Op) : Env :=
  ⟨["cpu-cluster"], fun op => if op = o then some (.platformError o) else none⟩

/-- Execute one operation: the compute-target lookup consults the platform
cluster state (raising `ComputeTargetException` when the cluster is
absent), `ComputeTarget.create` registers the cluster, and every other
operation consults the failure oracle. -/
def execOp (env : Env) : Op → Except PyError Env
  | .computeTargetLookup n =>
      if n ∈ env.clusters then .ok env else .error .computeTargetException
  | .computeTargetCreate n =>
      match env.fails (.computeTargetCreate n) with
      | some e => .error e
      | none => .ok { env with clusters := n :: env.clusters }
  | op =>
      match env.fails op with
      | some e => .error e
      | none => .ok env

/-- Evaluate the names an expression reads; the first unbound name raises
`NameError`, as in Python. -/
def resolveArgs (sc : Scope) : List String → Except PyError Unit
  | [] => .ok ()
  | a :: rest =>
      match sc.lookup a with
      | some _ => resolveArgs sc rest
      | none => .error (.nameError a)

/-- Run one simple statement: trace of issued operations, and either the
updated scope/environment or the raised exception. -/
def runSimple (env : Env) (sc : Scope) :
    SStmt → List Op × Except PyError (Scope × Env)
  | .bindStr x lit => ([], .ok ((x, .str lit) :: sc, env))
  | .assign x op args =>
      match resolveArgs sc args with
      | .error e => ([], .error e)
      | .ok _ =>
          match execOp env op with
          | .error e => ([op], .error e)
          | .ok env' => ([op], .ok ((x, .result op) :: sc, env'))
  | .expr op args =>
      match resolveArgs sc args with
      | .error e => ([], .error e)
      | .ok _ =>
          match execOp env op with
          | .error e => ([op], .error e)
          | .ok env' => ([op], .ok (sc, env'))

/-- Run a list of simple statements in order; an exception aborts the rest
but the trace up to it is kept. -/
def runSimples (env : Env) (sc : Scope) :
    List SStmt → List Op × Except PyError (Scope × Env)
  | [] => ([], .ok (sc, env))
  | s :: rest =>
      match runSimple env sc s with
      | (t, .error e) => (t, .error e)
      | (t, .ok (sc', env')) =>
          let (t', r) := runSimples env' sc' rest
          (t ++ t', r)

/-- Run one notebook statement.  A `try/except` runs its body; an exception
caught by the named class transfers control to the handler (the body's
partial trace is kept, as the side effects did happen); any other
exception propagates. -/
def runStmt (env : Env) (sc : Scope) :
    Stmt → List Op × Except PyError (Scope × Env)
  | .simple s => runSimple env sc s
  | .tryExcept body cls handler =>
      match runSimples env sc body with
      | (t, .ok r) => (t, .ok r)
      | (t, .error e) =>
          if cls.catches e then
            let (t', r) := runSimples env sc handler
            (t ++ t', r)
          else (t, .error e)

/-- Run a list of notebook statements in order, exceptions propagating. -/
def runStmts (env : Env) (sc : Scope) :
    List Stmt → List Op × Except PyError (Scope × Env)
  | [] => ([], .ok (sc, env))
  | s :: rest =>
      match runStmt env sc s with
      | (t, .error e) => (t, .error e)
      | (t, .ok (sc', env')) =>
          let (t', r) := runStmts env' sc' rest
          (t ++ t', r)

/-!
## The notebook's code cells

Each `cellN` below transcribes code cell `cell-N` of the notebook (markdown
cells carry no code).  `print` calls and bare display expressions are pure
output and are not modelled.
-/

/-- cell-6: `ws = Workspace.from_config()`. -/
def cell6 : List Stmt :=
  [.simple (.assign "ws" .workspaceFromConfig [])]

/-- cell-8: `data_dir = ws.get_default_datastore()`.  The upload line
`#data_dir.upload('data', overwrite=True, show_progress=False)` is a
comment in the source and therefore contributes no statement. -/
def cell8 : List Stmt :=
  [.simple (.assign "data_dir" .getDefaultDatastore ["ws"])]

/-- cell-10: `cluster_name = "cpu-cluster"`, then
`try: compute_target = ComputeTarget(workspace=ws, name=cluster_name)`
`except ComputeTargetException:` provisioning configuration
(`vm_size='STANDARD_D3_V2', max_nodes=4`), `ComputeTarget.create`, and
`compute_target.wait_for_completion(show_output=True)`. -/
def cell10 : List Stmt :=
  [.simple (.bindStr "cluster_name" "cpu-cluster"),
   .tryExcept
     [.assign "compute_target" (.computeTargetLookup "cpu-cluster")
       ["ws", "cluster_name"]]
     .computeTargetExc
     [.assign "compute_config" (.provisioningConfiguration "STANDARD_D3_V2" 4) [],
      .assign "compute_target" (.computeTargetCreate "cpu-cluster")
        ["ws", "cluster_name", "compute_config"],
      .expr .computeWaitForCompletion ["compute_target"]]]

/-- cell-13: `script_folder = './pytorch-birds'`;
`os.makedirs(script_folder, exist_ok=True)`. -/
def cell13 : List Stmt :=
  [.simple (.bindStr "script_folder" "./pytorch-birds"),
   .simple (.expr (.makedirs "./pytorch-birds" true) ["script_folder"])]

/-- cell-16: `shutil.copy('pytorch_train.py', script_folder)`. -/
def cell16 : List Stmt :=
  [.simple (.expr (.copyFile "pytorch_train.py" "./pytorch-birds")
    ["script_folder"])]

/-- cell-18: `est = PyTorch(source_directory=script_folder,
compute_target=compute_target, entry_script='pytorch_train.py',
pip_packages=['pillow==5.4.1'])`. -/
def cell18 : List Stmt :=
  [.simple (.assign "est" (.pytorchEstimator "./pytorch-birds" "pytorch_train.py")
    ["script_folder", "compute_target"])]

/-- cell-19: `output = PipelineData("output", datastore=data_dir)`;
`input_data = DataReference(datastore=data_dir,
data_reference_name="input_data", path_on_datastore="fowl_data")`. -/
def cell19 : List Stmt :=
  [.simple (.assign "output" (.pipelineData "output") ["data_dir"]),
   .simple (.assign "input_data" (.dataReference "input_data" "fowl_data")
     ["data_dir"])]

/-- cell-23 constructs local configuration objects (`param_sampling`,
`early_termination_policy`, `hd_config`); these are pure in-process
constructions, modelled exactly by the `HyperDriveConfig` structure below,
and bound here as names for later statements to read. -/
def cell23 : List Stmt :=
  [.simple (.bindStr "param_sampling" "RandomParameterSampling"),
   .simple (.bindStr "early_termination_policy" "BanditPolicy"),
   .simple (.bindStr "hd_config" "HyperDriveConfig")]

/-- cell-25: `metrics_output_name = 'metrics_output'`;
`metrics_data = PipelineData(name='metrics_data', datastore=data_dir,
pipeline_output_name=metrics_output_name)`; `hd_step_name='Hyperdrive_step'`;
`hd_step = HyperDriveStep(name=hd_step_name, hyperdrive_config=hd_config,
estimator_entry_script_arguments=["--data_dir", input_data,
"--num_epochs", 5], inputs=[input_data], metrics_output=metrics_data)`. -/
def cell25 : List Stmt :=
  [.simple (.bindStr "metrics_output_name" "metrics_output"),
   .simple (.assign "metrics_data" (.pipelineData "metrics_data")
     ["data_dir", "metrics_output_name"]),
   .simple (.bindStr "hd_step_name" "Hyperdrive_step"),
   .simple (.assign "hd_step" (.hyperDriveStep "Hyperdrive_step")
     ["hd_step_name", "hd_config", "input_data", "metrics_data"])]

/-- cell-27: `exp = Experiment(workspace=ws, name='Hyperdrive_sample')`;
`pipeline1 = Pipeline(workspace=ws, steps=[hd_step])`;
`pipeline_run = exp.submit(pipeline)`.  Note the source binds `pipeline1`
but the submit call reads the name `pipeline`, which is never bound. -/
def cell27 : List Stmt :=
  [.simple (.assign "exp" (.experimentCreate "Hyperdrive_sample") ["ws"]),
   .simple (.assign "pipeline1" .pipelineCreate ["ws", "hd_step"]),
   .simple (.assign "pipeline_run" .experimentSubmit ["exp", "pipeline"])]

/-- cell-29: `hd_step_run = HyperDriveStepRun(step_run=
pipeline_run.find_step_run(hd_step_name)[0])`;
`best_run = hd_step_run.get_best_run_by_primary_metric()`. -/
def cell29 : List Stmt :=
  [.simple (.assign "hd_step_run" (.findStepRun "Hyperdrive_step")
     ["pipeline_run", "hd_step_name"]),
   .simple (.assign "best_run" .getBestRunByPrimaryMetric ["hd_step_run"])]

/-- cell-31: `best_run.download_file('outputs/model.pt',
output_file_path='model.pt')`; `best_run_model = torch.load('model.pt')`. -/
def cell31 : List Stmt :=
  [.simple (.expr (.downloadFile "outputs/model.pt" "model.pt") ["best_run"]),
   .simple (.assign "best_run_model" (.torchLoad "model.pt") [])]

/-- cell-32: `dummy_input = torch.randn(1, 3, 224, 224)`;
`torch.onnx.export(best_run_model, dummy_input, "model.onnx")`. -/
def cell32 : List Stmt :=
  [.simple (.assign "dummy_input" (.torchRandn [1, 3, 224, 224]) []),
   .simple (.expr (.onnxExport "model.onnx") ["best_run_model", "dummy_input"])]

/-- cell-33: `onnx_model = onnx.load('model.onnx')`;
`onnx.checker.check_model(onnx_model)`. -/
def cell33 : List Stmt :=
  [.simple (.assign "onnx_model" (.onnxLoad "model.onnx") []),
   .simple (.expr .onnxCheckModel ["onnx_model"])]

/-- cell-34: `model = Model.register(workspace=ws, model_path="model.onnx",
model_name="onnx-birds")`. -/
def cell34 : List Stmt :=
  [.simple (.assign "model" (.modelRegister "onnx-birds" "model.onnx") ["ws"])]

/-- The whole notebook, code cells in order. -/
def notebookProgram : List Stmt :=
  cell6 ++ cell8 ++ cell10 ++ cell13 ++ cell16 ++ cell18 ++ cell19 ++
  cell23 ++ cell25 ++ cell27 ++ cell29 ++ cell31 ++ cell32 ++ cell33 ++ cell34

/-- The cells from submission onwards (the part of the notebook after the
hyperdrive pipeline step is constructed). -/
def submissionOnwards : List Stmt := cell27 ++ cell29

/-- The post-sweep model-handling section (cells 31-34). -/
def postSweepProgram : List Stmt := cell31 ++ cell32 ++ cell33 ++ cell34

/-- The scope the post-submission cells read from, as produced by a
successful run of the earlier cells (workspace handle, step name, and the
pipeline-run handle the submission was intended to return). -/
def postSubmitScope : Scope :=
  [("pipeline_run", .result .experimentSubmit),
   ("hd_step_name", .str "Hyperdrive_step"),
   ("ws", .result .workspaceFromConfig)]

/-- The scope the post-sweep section (cells 31-34) reads from: the
workspace handle and the best-run handle selected in cell-29. -/
def postSweepScope : Scope :=
  [("best_run", .result .getBestRunByPrimaryMetric),
   ("ws", .result .workspaceFromConfig)]

/-!
## Syntactic views of the program

For structural claims (which operations appear in the text, which are
guarded by a handler) we extract operations from the statements
themselves, independent of any execution environment.
-/

/-- The operations a simple statement invokes (syntactically). -/
def SStmt.ops : SStmt → List Op
  | .bindStr _ _ => []
  | .assign _ op _ => [op]
  | .expr op _ => [op]

/-- All operations a statement mentions, handler included. -/
def Stmt.ops : Stmt → List Op
  | .simple s => s.ops
  | .tryExcept body _ handler =>
      (body.map SStmt.ops).flatten ++ (handler.map SStmt.ops).flatten

/-- All operations a program mentions, in program order. -/
def progOps (p : List Stmt) : List Op := (p.map Stmt.ops).flatten

/-- Number of `try/except` blocks in a program. -/
def tryCount (p : List Stmt) : Nat :=
  (p.filter fun s => match s with
    | .tryExcept _ _ _ => true
    | _ => false).length

/-- The operations whose exceptions some handler can intercept: those in
`try` bodies.  (Operations in an `except` handler are not guarded — an
exception there propagates.) -/
def handledOps (p : List Stmt) : List Op :=
  (p.map fun s => match s with
    | .tryExcept body _ _ => (body.map SStmt.ops).flatten
    | _ => []).flatten

/-- The exception classes named by the program's `except` clauses. -/
def caughtClasses (p : List Stmt) : List ExcClass :=
  (p.map fun s => match s with
    | .tryExcept _ cls _ => [cls]
    | _ => []).flatten

/-!
## Decidable projections of a run

`Env` holds a failure oracle (a function), so a full run result is not
decidably comparable; the projections below drop the environment and are. -/

/-- The trace of operations a run issues. -/
def runTrace (env : Env) (sc : Scope) (p : List Stmt) : List Op :=
  (runStmts env sc p).1

/-- The exception a run raises, if any. -/
def runErr (env : Env) (sc : Scope) (p : List Stmt) : Option PyError :=
  match (runStmts env sc p).2 with
  | .error e => some e
  | .ok _ => none

/-- The final scope of a successful run. -/
def runScope (env : Env) (sc : Scope) (p : List Stmt) : Option Scope :=
  match (runStmts env sc p).2 with
  | .error _ => none
  | .ok (sc', _) => some sc'

/-- The platform's cluster list after a successful run. -/
def runClusters (env : Env) (sc : Scope) (p : List Stmt) : Option (List String) :=
  match (runStmts env sc p).2 with
  | .error _ => none
  | .ok (_, env') => some env'.clusters

/-!
## The hyperdrive configuration (cell-23)

The notebook builds three local configuration objects.  The structures
below mirror the SDK classes as instantiated at the call sites (the fields
are exactly the arguments the notebook passes); `uniform lo hi` is the
`azureml.train.hyperdrive.uniform` distribution.  Bounds and the slack
factor are exact rationals.
-/

/-- A hyperparameter sampling distribution as used by the notebook. -/
inductive Distribution where
  | uniform (lo hi : ℚ)
  deriving DecidableEq, Repr

/-- `RandomParameterSampling` over a named parameter space. -/
inductive Sampling where
  | randomParameterSampling (space : List (String × Distribution))
  deriving DecidableEq, Repr

/-- `BanditPolicy(slack_factor=..., evaluation_interval=...,
delay_evaluation=...)`. -/
structure BanditPolicy where
  slack_factor : ℚ
  evaluation_interval : ℕ
  delay_evaluation : ℕ
  deriving DecidableEq, Repr

/-- `PrimaryMetricGoal`. -/
inductive PrimaryMetricGoal where
  | MAXIMIZE
  | MINIMIZE
  deriving DecidableEq, Repr

/-- `HyperDriveConfig` with the fields the notebook passes. -/
structure HyperDriveConfig where
  hyperparameter_sampling : Sampling
  policy : BanditPolicy
  primary_metric_name : String
  primary_metric_goal : PrimaryMetricGoal
  max_total_runs : ℕ
  max_concurrent_runs : ℕ
  deriving DecidableEq, Repr

/-- cell-23: `param_sampling = RandomParameterSampling({'learning_rate':
uniform(0.0005, 0.005), 'momentum': uniform(0.9, 0.99)})`. -/
def param_sampling : Sampling :=
  .randomParameterSampling
    [("learning_rate", .uniform (0.0005 : ℚ) (0.005 : ℚ)),
     ("momentum", .uniform (0.9 : ℚ) (0.99 : ℚ))]

/-- cell-23: `early_termination_policy = BanditPolicy(slack_factor=0.15,
evaluation_interval=1, delay_evaluation=10)`. -/
def early_termination_policy : BanditPolicy :=
  { slack_factor := (0.15 : ℚ), evaluation_interval := 1, delay_evaluation := 10 }

/-- cell-23: `hd_config = HyperDriveConfig(estimator=est,
hyperparameter_sampling=param_sampling, policy=early_termination_policy,
primary_metric_name='best_val_acc',
primary_metric_goal=PrimaryMetricGoal.MAXIMIZE, max_total_runs=8,
max_concurrent_runs=4)`.  (The estimator is a run handle, not part of the
sweep payload proper.) -/
def hd_config : HyperDriveConfig :=
  { hyperparameter_sampling := param_sampling
    policy := early_termination_policy
    primary_metric_name := "best_val_acc"
    primary_metric_goal := .MAXIMIZE
    max_total_runs := 8
    max_concurrent_runs := 4 }

/-- The sweep payload the spec describes, stated from the claim's words:
exactly the two uniform distributions, random sampling, the bandit policy
with the three stated parameters, the stated primary metric and goal, and
the two run caps. -/
def sweepPayloadSpec (c : HyperDriveConfig) : Prop :=
  c.hyperparameter_sampling =
    .randomParameterSampling
      [("learning_rate", .uniform (1/2000 : ℚ) (1/200 : ℚ)),
       ("momentum", .uniform (9/10 : ℚ) (99/100 : ℚ))] ∧
  c.policy.slack_factor = (3/20 : ℚ) ∧
  c.policy.evaluation_interval = 1 ∧
  c.policy.delay_evaluation = 10 ∧
  c.primary_metric_name = "best_val_acc" ∧
  c.primary_metric_goal = .MAXIMIZE ∧
  c.max_total_runs = 8 ∧
  c.max_concurrent_runs = 4

/-!
## The staging step (cells 13 and 16) over a small filesystem

`os.makedirs(d, exist_ok=True)` and `shutil.copy(src, dstDir)` are local
filesystem effects; we model the parts of the filesystem they touch:
a set of directories and a map from file path to contents.
-/

/-- A filesystem fragment: existing directories, and files as a path ↦
contents association list (most recent write first, older bindings for the
same path removed). -/
structure FS where
  dirs : List String
  files : List (String × String)
  deriving DecidableEq, Repr

/-- Contents of the file at `p`, if present. -/
def FS.read (fs : FS) (p : String) : Option String :=
  (fs.files.find? (fun kv => kv.1 == p)).map (·.2)

/-- Overwrite (or create) the file at `p` with contents `c`. -/
def FS.write (fs : FS) (p c : String) : FS :=
  { fs with files := (p, c) :: fs.files.filter (fun kv => kv.1 != p) }

/-- `os.makedirs(d, exist_ok=existOk)`: creating an existing directory
raises `FileExistsError` unless `exist_ok=True`. -/
def makedirs (fs : FS) (d : String) (existOk : Bool) : Except PyError FS :=
  if d ∈ fs.dirs then
    if existOk then .ok fs else .error .fileExistsError
  else .ok { fs with dirs := d :: fs.dirs }

/-- `shutil.copy(src, dstDir)` for a bare source filename: copies `src`
into `dstDir/src`, overwriting any previous copy; raises
`FileNotFoundError` when the source is missing. -/
def shutilCopy (fs : FS) (src dstDir : String) : Except PyError FS :=
  match fs.read src with
  | none => .error .fileNotFoundError
  | some c => .ok (fs.write (dstDir ++ "/" ++ src) c)

/-- The staging step of cells 13 and 16:
`os.makedirs('./pytorch-birds', exist_ok=True)` then
`shutil.copy('pytorch_train.py', './pytorch-birds')`. -/
def stage (fs : FS) : Except PyError FS := do
  let fs1 ← makedirs fs "./pytorch-birds" true
  shutilCopy fs1 "pytorch_train.py" "./pytorch-birds"

/-- Run the staging step `n` times in sequence. -/
def stageN : ℕ → FS → Except PyError FS
  | 0, fs => .ok fs
  | n + 1, fs => (stage fs).bind (stageN n)

/-!
## The ONNX export step (cell-32) with the pseudorandom generator

`torch.randn` fills a tensor from torch's global generator and advances
the generator.  We model the generator by its state; the entries a call
draws are a function of the state consumed (recorded in the tensor's
`draw` field — equal states reproduce equal entries, distinct states give
the distinct fresh values the generator was advanced to provide), and the
call advances the state.
-/

/-- torch's global pseudorandom generator, by its state. -/
structure TorchGen where
  seed : ℕ
  deriving DecidableEq, Repr

/-- A tensor as passed to `torch.onnx.export`: its shape, and the
generator state that produced its entries. -/
structure Tensor where
  shape : List ℕ
  draw : ℕ
  deriving DecidableEq, Repr

/-- `torch.randn(shape)`: draws entries from the generator state and
advances the generator. -/
def torchRandn (shape : List ℕ) (g : TorchGen) : Tensor × TorchGen :=
  (⟨shape, g.seed⟩, ⟨g.seed + 1⟩)

/-- cell-32: `dummy_input = torch.randn(1, 3, 224, 224)` followed by
`torch.onnx.export(best_run_model, dummy_input, "model.onnx")`: the tensor
handed to the export call, and the generator as the step leaves it. -/
def exportStepInput (g : TorchGen) : Tensor × TorchGen :=
  torchRandn [1, 3, 224, 224] g

/-!
## Helper predicates and lemmas
-/

/-- Is this operation a datastore upload? -/
def Op.isUpload : Op → Bool
  | .datastoreUpload _ _ => true
  | _ => false

/-- Is this operation a wait/poll on the submitted pipeline run? -/
def Op.isPipelineWait : Op → Bool
  | .pipelineWaitForCompletion => true
  | _ => false

/-- Is this operation a provisioning-configuration request? -/
def Op.isProvisioning : Op → Bool
  | .provisioningConfiguration _ _ => true
  | _ => false

/-- The scope in which cell-10 runs: the bindings made by cells 6 and 8. -/
def wsScope : Scope :=
  [("data_dir", .result .getDefaultDatastore),
   ("ws", .result .workspaceFromConfig)]

theorem Scope.lookup_cons (k a : String) (v : Value) (sc : Scope) :
    Scope.lookup ((k, v) :: sc) a =
      if k == a then some v else Scope.lookup sc a := by
  simp only [Scope.lookup, List.find?_cons]
  cases h : (k == a) <;> simp [h]

theorem runStmts_append (env : Env) (sc : Scope) (p q : List Stmt) :
    runStmts env sc (p ++ q) =
      match runStmts env sc p with
      | (t, .error e) => (t, .error e)
      | (t, .ok (sc', env')) =>
          let (t', r) := runStmts env' sc' q
          (t ++ t', r) := by
  induction p generalizing env sc with
  | nil => simp [runStmts]
  | cons s rest ih =>
      simp only [List.cons_append, runStmts]
      cases h : runStmt env sc s with
      | mk t r =>
          cases r with
          | error e => simp
          | ok r' =>
              obtain ⟨sc', env'⟩ := r'
              simp only [List.append_eq]
              rw [ih env' sc']
              cases h2 : runStmts env' sc' rest with
              | mk t2 r2 =>
                  cases r2 with
                  | error e => simp
                  | ok r2' =>
                      obtain ⟨sc2, env2⟩ := r2'
                      cases h3 : runStmts env2 sc2 q with
                      | mk t3 r3 => simp [List.append_assoc]

/-- Running cell-10 when the cluster already exists: one lookup, no
provisioning, `compute_target` bound to the looked-up handle, platform
state unchanged. -/
theorem cell10_run_present (cl : List String) (sc : Scope) (w : Value)
    (hws : Scope.lookup sc "ws" = some w) (h : "cpu-cluster" ∈ cl) :
    runStmts ⟨cl, fun _ => none⟩ sc cell10 =
      ([.computeTargetLookup "cpu-cluster"],
       .ok (("compute_target", .result (.computeTargetLookup "cpu-cluster")) ::
            ("cluster_name", .str "cpu-cluster") :: sc,
            ⟨cl, fun _ => none⟩)) := by
  simp [cell10, runStmts, runStmt, runSimples, runSimple, resolveArgs,
    Scope.lookup_cons, hws, execOp, h]

/-- Running cell-10 when the cluster is absent: the lookup raises
`ComputeTargetException`, the handler provisions with
`vm_size='STANDARD_D3_V2', max_nodes=4`, creates the cluster and waits;
`compute_target` is bound to the created handle and the platform gains the
cluster. -/
theorem cell10_run_absent (cl : List String) (sc : Scope) (w : Value)
    (hws : Scope.lookup sc "ws" = some w) (h : "cpu-cluster" ∉ cl) :
    runStmts ⟨cl, fun _ => none⟩ sc cell10 =
      ([.computeTargetLookup "cpu-cluster",
        .provisioningConfiguration "STANDARD_D3_V2" 4,
        .computeTargetCreate "cpu-cluster",
        .computeWaitForCompletion],
       .ok (("compute_target", .result (.computeTargetCreate "cpu-cluster")) ::
            ("compute_config", .result (.provisioningConfiguration "STANDARD_D3_V2" 4)) ::
            ("cluster_name", .str "cpu-cluster") :: sc,
            ⟨"cpu-cluster" :: cl, fun _ => none⟩)) := by
  simp [cell10, runStmts, runStmt, runSimples, runSimple, resolveArgs,
    Scope.lookup_cons, hws, execOp, h, ExcClass.catches]

/-!
## Claim theorems
-/

/-- C1: the compute-target acquisition is an idempotent two-branch
fallback: the cluster is looked up by name `cpu-cluster`; when the lookup
succeeds no provisioning request is issued and the existing target is used
unchanged; a new cluster is provisioned and created only when the lookup
raises `ComputeTargetException` (the cluster is absent), and re-running
the cell afterwards issues no further provisioning. -/
theorem c1_compute_target_acquisition (cl : List String) :
    ("cpu-cluster" ∈ cl →
      runTrace ⟨cl, fun _ => none⟩ wsScope cell10 =
        [.computeTargetLookup "cpu-cluster"] ∧
      runScope ⟨cl, fun _ => none⟩ wsScope cell10 =
        some (("compute_target", .result (.computeTargetLookup "cpu-cluster")) ::
              ("cluster_name", .str "cpu-cluster") :: wsScope) ∧
      runClusters ⟨cl, fun _ => none⟩ wsScope cell10 = some cl) ∧
    ("cpu-cluster" ∉ cl →
      runTrace ⟨cl, fun _ => none⟩ wsScope cell10 =
        [.computeTargetLookup "cpu-cluster",
         .provisioningConfiguration "STANDARD_D3_V2" 4,
         .computeTargetCreate "cpu-cluster",
         .computeWaitForCompletion] ∧
      runScope ⟨cl, fun _ => none⟩ wsScope cell10 =
        some (("compute_target", .result (.computeTargetCreate "cpu-cluster")) ::
              ("compute_config",
                .result (.provisioningConfiguration "STANDARD_D3_V2" 4)) ::
              ("cluster_name", .str "cpu-cluster") :: wsScope) ∧
      runClusters ⟨cl, fun _ => none⟩ wsScope cell10 =
        some ("cpu-cluster" :: cl) ∧
      runTrace ⟨cl, fun _ => none⟩ wsScope (cell10 ++ cell10) =
        [.computeTargetLookup "cpu-cluster",
         .provisioningConfiguration "STANDARD_D3_V2" 4,
         .computeTargetCreate "cpu-cluster",
         .computeWaitForCompletion,
         .computeTargetLookup "cpu-cluster"]) := by
  constructor
  · intro h
    simp [runTrace, runScope, runClusters,
      cell10_run_present cl wsScope (.result .workspaceFromConfig) rfl h]
  · intro h
    have h1 := cell10_run_absent cl wsScope (.result .workspaceFromConfig) rfl h
    refine ⟨by simp [runTrace, h1], by simp [runScope, h1],
      by simp [runClusters, h1], ?_⟩
    have h2 := cell10_run_present ("cpu-cluster" :: cl)
      (("compute_target", .result (.computeTargetCreate "cpu-cluster")) ::
       ("compute_config",
         .result (.provisioningConfiguration "STANDARD_D3_V2" 4)) ::
       ("cluster_name", .str "cpu-cluster") :: wsScope)
      (.result .workspaceFromConfig) rfl (List.mem_cons_self _ _)
    rw [runTrace, runStmts_append, h1]
    simp [h2]

/-- C1 witness: with the cluster already present, the acquisition issues
exactly the lookup and keeps the existing target. -/
theorem c1_compute_target_acquisition_witness :
    runTrace ⟨["cpu-cluster"], fun _ => none⟩ wsScope cell10 =
      [.computeTargetLookup "cpu-cluster"] ∧
    runScope ⟨["cpu-cluster"], fun _ => none⟩ wsScope cell10 =
      some (("compute_target", .result (.computeTargetLookup "cpu-cluster")) ::
            ("cluster_name", .str "cpu-cluster") :: wsScope) ∧
    runClusters ⟨["cpu-cluster"], fun _ => none⟩ wsScope cell10 =
      some ["cpu-cluster"] :=
  (c1_compute_target_acquisition ["cpu-cluster"]).1 (by decide)

/-- C2: the code contradicts the intended submission: cell-27 constructs
the pipeline as `pipeline1` but submits the unbound name `pipeline`, so
under an environment where every platform call succeeds the notebook run
raises `NameError('pipeline')`, the experiment and pipeline objects are
created, and no submission call is ever issued. -/
theorem c2_submission_name_error :
    runErr envOk [] notebookProgram = some (.nameError "pipeline") ∧
    Op.experimentSubmit ∉ runTrace envOk [] notebookProgram ∧
    Op.pipelineCreate ∈ runTrace envOk [] notebookProgram ∧
    runTrace envOk [] notebookProgram =
      [.workspaceFromConfig, .getDefaultDatastore,
       .computeTargetLookup "cpu-cluster",
       .makedirs "./pytorch-birds" true,
       .copyFile "pytorch_train.py" "./pytorch-birds",
       .pytorchEstimator "./pytorch-birds" "pytorch_train.py",
       .pipelineData "output", .dataReference "input_data" "fowl_data",
       .pipelineData "metrics_data", .hyperDriveStep "Hyperdrive_step",
       .experimentCreate "Hyperdrive_sample", .pipelineCreate] := by
  decide

/-- C3 counterexample: executing the notebook issues no data-upload call —
neither with the cluster present nor absent does the trace contain an
upload, and no upload operation occurs anywhere in the program text (the
`data_dir.upload` line is a comment in the source). -/
theorem c3_counterexample :
    (runTrace envOk [] notebookProgram).filter Op.isUpload = [] ∧
    (runTrace envFresh [] notebookProgram).filter Op.isUpload = [] ∧
    (progOps notebookProgram).filter Op.isUpload = [] := by
  decide

/-- C3 amended: the notebook obtains the workspace's default datastore,
but the data-upload call is present only as a commented-out line, so
executing the notebook in order issues no data-upload call to the
datastore. -/
theorem c3_no_upload_issued :
    runTrace envOk [] (cell6 ++ cell8) =
      [.workspaceFromConfig, .getDefaultDatastore] ∧
    runErr envOk [] (cell6 ++ cell8) = none ∧
    (progOps notebookProgram).filter Op.isUpload = [] := by
  decide

/-- C6 counterexample: the notebook never blocks on the submitted
pipeline: no wait/poll call on the pipeline run occurs in the program text
nor in any execution trace (cluster present or absent). -/
theorem c6_counterexample :
    (progOps notebookProgram).filter Op.isPipelineWait = [] ∧
    (runTrace envOk [] notebookProgram).filter Op.isPipelineWait = [] ∧
    (runTrace envFresh [] notebookProgram).filter Op.isPipelineWait = [] := by
  decide

/-- C6 amended: after the single submission call the notebook does not
block: in program order the best-run retrieval directly follows the
submission, with no wait or polling call in between (or anywhere else). -/
theorem c6_no_wait_between_submit_and_retrieval :
    progOps submissionOnwards =
      [.experimentCreate "Hyperdrive_sample", .pipelineCreate,
       .experimentSubmit, .findStepRun "Hyperdrive_step",
       .getBestRunByPrimaryMetric] ∧
    (progOps notebookProgram).filter Op.isPipelineWait = [] := by
  decide

/-- C7: the post-sweep model-handling section (cells 31-34), run with the
best-run handle in scope, performs — in this order — the artifact download
of `outputs/model.pt`, the local `torch.load`, the ONNX export traced with
the freshly drawn dummy input (shape recorded at the `torch.randn` call),
the structural `onnx.checker.check_model` validation, and the registration
under the name `onnx-birds`, with no exception raised. -/
theorem c7_post_sweep_sequence :
    runTrace envOk postSweepScope postSweepProgram =
      [.downloadFile "outputs/model.pt" "model.pt",
       .torchLoad "model.pt",
       .torchRandn [1, 3, 224, 224],
       .onnxExport "model.onnx",
       .onnxLoad "model.onnx",
       .onnxCheckModel,
       .modelRegister "onnx-birds" "model.onnx"] ∧
    runErr envOk postSweepScope postSweepProgram = none := by
  decide

/-- C8: when the lookup finds no existing cluster, the provisioning
request issued carries exactly the VM size `STANDARD_D3_V2` and the
max-node count `4`, and it is the only provisioning request in the
trace. -/
theorem c8_provisioning_request (cl : List String)
    (h : "cpu-cluster" ∉ cl) :
    runTrace ⟨cl, fun _ => none⟩ wsScope cell10 =
      [.computeTargetLookup "cpu-cluster",
       .provisioningConfiguration "STANDARD_D3_V2" 4,
       .computeTargetCreate "cpu-cluster",
       .computeWaitForCompletion] ∧
    (runTrace ⟨cl, fun _ => none⟩ wsScope cell10).filter Op.isProvisioning =
      [.provisioningConfiguration "STANDARD_D3_V2" 4] := by
  have h1 := cell10_run_absent cl wsScope (.result .workspaceFromConfig) rfl h
  constructor
  · simp [runTrace, h1]
  · simp [runTrace, h1, Op.isProvisioning]

/-- C8 witness: provisioning on an empty platform. -/
theorem c8_provisioning_request_witness :
    runTrace ⟨[], fun _ => none⟩ wsScope cell10 =
      [.computeTargetLookup "cpu-cluster",
       .provisioningConfiguration "STANDARD_D3_V2" 4,
       .computeTargetCreate "cpu-cluster",
       .computeWaitForCompletion] ∧
    (runTrace ⟨[], fun _ => none⟩ wsScope cell10).filter Op.isProvisioning =
      [.provisioningConfiguration "STANDARD_D3_V2" 4] :=
  c8_provisioning_request [] (by decide)

/-- C4: the hyperparameter sweep payload contains exactly the uniform
distributions `uniform(0.0005, 0.005)` for the learning rate and
`uniform(0.9, 0.99)` for momentum, random sampling, a bandit policy with
`slack_factor=0.15`, `evaluation_interval=1`, `delay_evaluation=10`,
primary metric `best_val_acc` with goal MAXIMIZE, and run caps
`max_total_runs=8`, `max_concurrent_runs=4`. -/
theorem c4_sweep_payload : sweepPayloadSpec hd_config := by
  refine ⟨?_, ?_, rfl, rfl, rfl, rfl, rfl, rfl⟩ <;>
    norm_num [hd_config, param_sampling, early_termination_policy]

/-- The operations the notebook invokes outside any `try` body, up to the
point the run-all execution reaches (cells 6-27). -/
def unhandledPreOps : List Op :=
  [.workspaceFromConfig, .getDefaultDatastore,
   .makedirs "./pytorch-birds" true,
   .copyFile "pytorch_train.py" "./pytorch-birds",
   .pytorchEstimator "./pytorch-birds" "pytorch_train.py",
   .pipelineData "output", .dataReference "input_data" "fowl_data",
   .pipelineData "metrics_data", .hyperDriveStep "Hyperdrive_step",
   .experimentCreate "Hyperdrive_sample", .pipelineCreate]

/-- The operations the cells after submission invoke, all outside any
`try` body. -/
def unhandledPostOps : List Op :=
  [.findStepRun "Hyperdrive_step", .getBestRunByPrimaryMetric,
   .downloadFile "outputs/model.pt" "model.pt", .torchLoad "model.pt",
   .torchRandn [1, 3, 224, 224], .onnxExport "model.onnx",
   .onnxLoad "model.onnx", .onnxCheckModel,
   .modelRegister "onnx-birds" "model.onnx"]

/-- C5: the compute-target `try/except` is the only error handling in the
notebook: the program contains exactly one `try/except`, it guards only
the lookup and names only `ComputeTargetException`; the caught signal
triggers the provisioning sequence; and every other operation is
unguarded, so making any single one of them fail makes its error the
run's outcome — for the operations before the submission cell over the
whole notebook run, and for the operations after it over the remaining
cells (which the submission cell's own unhandled `NameError` otherwise
precedes). -/
theorem c5_single_handler :
    tryCount notebookProgram = 1 ∧
    handledOps notebookProgram = [.computeTargetLookup "cpu-cluster"] ∧
    caughtClasses notebookProgram = [.computeTargetExc] ∧
    runTrace envFresh [] (cell6 ++ cell8 ++ cell10) =
      [.workspaceFromConfig, .getDefaultDatastore,
       .computeTargetLookup "cpu-cluster",
       .provisioningConfiguration "STANDARD_D3_V2" 4,
       .computeTargetCreate "cpu-cluster",
       .computeWaitForCompletion] ∧
    (unhandledPreOps.all fun o =>
      decide (runErr (failOnly o) [] notebookProgram =
        some (.platformError o))) = true ∧
    (unhandledPostOps.all fun o =>
      decide (runErr (failOnly o) postSubmitScope (cell29 ++ postSweepProgram) =
        some (.platformError o))) = true := by
  decide

/-!
## Lemmas for the staging step
-/

theorem find?_filter_other (l : List (String × String)) (p q : String)
    (h : q ≠ p) :
    (l.filter (fun kv => kv.1 != p)).find? (fun kv => kv.1 == q) =
      l.find? (fun kv => kv.1 == q) := by
  induction l with
  | nil => rfl
  | cons kv rest ih =>
      by_cases hp : kv.1 = p
      · have hq : (kv.1 == q) = false := by
          rw [hp]
          exact beq_eq_false_iff_ne.mpr fun he => h he.symm
        have hnp : (kv.1 != p) = false := by simp [hp]
        simp [List.filter_cons, List.find?_cons, hnp, hq, ih]
      · have hnp : (kv.1 != p) = true := by simp [hp]
        by_cases hqq : kv.1 = q
        · simp [List.filter_cons, List.find?_cons, hnp, hqq, h]
        · have hq : (kv.1 == q) = false := beq_eq_false_iff_ne.mpr hqq
          simp [List.filter_cons, List.find?_cons, hnp, hq, ih]

/-- Writing under one path leaves the file at a different path unread. -/
theorem FS.read_write_other (fs : FS) (p q c : String)
    (h : q ≠ p) : (fs.write p c).read q = fs.read q := by
  have hpq : (p == q) = false := beq_eq_false_iff_ne.mpr fun he => h he.symm
  simp [FS.read, FS.write, List.find?_cons, hpq, find?_filter_other _ _ _ h]

/-- Overwriting a file with the same contents twice equals writing once. -/
theorem FS.write_write (fs : FS) (p c : String) :
    (fs.write p c).write p c = fs.write p c := by
  simp [FS.write, List.filter_cons, List.filter_filter]

/-- The directory-creating half of the staging step as a total function:
`os.makedirs('./pytorch-birds', exist_ok=True)` never raises. -/
def ensureDir (fs : FS) : FS :=
  if "./pytorch-birds" ∈ fs.dirs then fs
  else { fs with dirs := "./pytorch-birds" :: fs.dirs }

theorem makedirs_existOk (fs : FS) :
    makedirs fs "./pytorch-birds" true = .ok (ensureDir fs) := by
  simp only [makedirs, ensureDir]
  split <;> rfl

theorem ensureDir_read (fs : FS) (q : String) :
    (ensureDir fs).read q = fs.read q := by
  simp only [ensureDir]
  split <;> rfl

theorem ensureDir_mem (fs : FS) :
    "./pytorch-birds" ∈ (ensureDir fs).dirs := by
  simp only [ensureDir]
  split
  · assumption
  · exact List.mem_cons_self _ _

/-- The filesystem the staging step produces: the project directory
ensured, and the training script copied (overwriting) into it. -/
def stagedFS (fs : FS) (c : String) : FS :=
  (ensureDir fs).write "./pytorch-birds/pytorch_train.py" c

theorem stage_ok (fs : FS) (c : String)
    (h : fs.read "pytorch_train.py" = some c) :
    stage fs = .ok (stagedFS fs c) := by
  rw [stage, makedirs_existOk]
  show shutilCopy (ensureDir fs) "pytorch_train.py" "./pytorch-birds" = _
  rw [shutilCopy, ensureDir_read, h]
  rfl

theorem staged_dirs_mem (fs : FS) (c : String) :
    "./pytorch-birds" ∈ (stagedFS fs c).dirs :=
  ensureDir_mem fs

/-- Staging an already-staged filesystem changes nothing. -/
theorem stage_staged (fs : FS) (c : String)
    (h : fs.read "pytorch_train.py" = some c) :
    stage (stagedFS fs c) = .ok (stagedFS fs c) := by
  rw [stage]
  have hmk : makedirs (stagedFS fs c) "./pytorch-birds" true =
      .ok (stagedFS fs c) := by
    simp [makedirs, staged_dirs_mem fs c]
  rw [hmk]
  show shutilCopy (stagedFS fs c) "pytorch_train.py" "./pytorch-birds" = _
  have hr : (stagedFS fs c).read "pytorch_train.py" = some c := by
    rw [stagedFS, FS.read_write_other _ _ _ _ (by decide), ensureDir_read]
    exact h
  rw [shutilCopy, hr]
  show Except.ok ((stagedFS fs c).write "./pytorch-birds/pytorch_train.py" c) = _
  rw [stagedFS, FS.write_write]

theorem stageN_fixed (g : FS) (hg : stage g = .ok g) :
    ∀ n, stageN n g = .ok g := by
  intro n
  induction n with
  | zero => rfl
  | succ n ih =>
      show (stage g).bind (stageN n) = .ok g
      rw [hg]
      exact ih

/-- C9: the staging step (cells 13 and 16) is idempotent and total on any
filesystem holding the training script — whether or not the
`./pytorch-birds` directory already exists, it succeeds (`exist_ok=True`),
and running it `n+1` times leaves exactly the contents of running it once
(the copy overwrites the previous copy). -/
theorem c9_staging_idempotent (fs : FS) (c : String) (n : ℕ)
    (h : fs.read "pytorch_train.py" = some c) :
    stage fs = .ok (stagedFS fs c) ∧
    stageN (n + 1) fs = .ok (stagedFS fs c) := by
  have h1 := stage_ok fs c h
  refine ⟨h1, ?_⟩
  have h2 := stage_staged fs c h
  show (stage fs).bind (stageN n) = _
  rw [h1]
  exact stageN_fixed _ h2 n

/-- C9 witness: staging three times on a filesystem that already has the
project directory equals staging once. -/
theorem c9_staging_idempotent_witness :
    stage ⟨["./pytorch-birds"], [("pytorch_train.py", "script")]⟩ =
      .ok (stagedFS ⟨["./pytorch-birds"], [("pytorch_train.py", "script")]⟩
        "script") ∧
    stageN 3 ⟨["./pytorch-birds"], [("pytorch_train.py", "script")]⟩ =
      .ok (stagedFS ⟨["./pytorch-birds"], [("pytorch_train.py", "script")]⟩
        "script") :=
  c9_staging_idempotent ⟨["./pytorch-birds"], [("pytorch_train.py", "script")]⟩
    "script" 2 (by decide)

/-- C10: the dummy input traced through `torch.onnx.export` always has
shape `(1, 3, 224, 224)` whatever the generator state, and its entries are
freshly drawn: running the export step twice in succession hands the export
call tensors of the same shape whose entries come from different generator
states — only the shape is held fixed across runs. -/
theorem c10_fresh_dummy_input (g : TorchGen) :
    (exportStepInput g).1.shape = [1, 3, 224, 224] ∧
    (exportStepInput (exportStepInput g).2).1.shape =
      (exportStepInput g).1.shape ∧
    (exportStepInput (exportStepInput g).2).1.draw ≠
      (exportStepInput g).1.draw := by
  refine ⟨rfl, rfl, ?_⟩
  simp [exportStepInput, torchRandn]

/-- C10 witness: the two successive export-step runs from the initial
generator state. -/
theorem c10_fresh_dummy_input_witness :
    (exportStepInput ⟨0⟩).1.shape = [1, 3, 224, 224] ∧
    (exportStepInput (exportStepInput ⟨0⟩).2).1.shape =
      (exportStepInput ⟨0⟩).1.shape ∧
    (exportStepInput (exportStepInput ⟨0⟩).2).1.draw ≠
      (exportStepInput ⟨0⟩).1.draw :=
  c10_fresh_dummy_input ⟨0⟩
